import Mathlib

/- Formal model of the BodyTracker app (app.py): the record store interactions
of the sidebar save handler, the load_data reader, the calculate_slope trend
engine, the zone branch of display_analysis, and the sync (bulk overwrite)
handler.  Spreadsheet cells are kept as strings; the pandas parsers
pd.to_datetime(errors="coerce") and pd.to_numeric(errors="coerce") are
external collaborators and are modelled as arbitrary functions into Option,
where none plays the role of NaT / NaN. -/

namespace BodyTracker

/-- One record as it sits in a pandas DataFrame row.  The raw Date, Weight and
SMM cells are strings (the sheet's native representation); `dateObj` is the
value of the derived Date_Obj column that calculate_slope writes via
pd.to_datetime, with `none` for NaT. -/
structure Row where
  dateRaw : String
  weightRaw : String
  smmRaw : String
  dateObj : Option Int := none
  deriving Repr, DecidableEq

/-- A pandas DataFrame: named columns plus rows. -/
structure DataFrame where
  cols : List String
  rows : List Row
  deriving Repr, DecidableEq

/-- Observable state of the Google-Sheets backend as load_data sees it: the
sheet handle is None, or get_all_records raises, or it returns a table with
the given columns and rows. -/
inductive Backend where
  | absent
  | failing
  | ok (cols : List String) (rows : List Row)
  deriving Repr, DecidableEq

/-- Required columns, also the columns of the empty fallback frame
pd.DataFrame(columns=["Date", "Weight", "SMM"]). -/
def expected_cols : List String := ["Date", "Weight", "SMM"]

/-- load_data from app.py: sheet is None → empty frame; get_all_records raises
→ empty frame; loaded table missing a required column → empty frame; otherwise
the loaded table itself. -/
def load_data : Backend → DataFrame
  | Backend.absent => ⟨expected_cols, []⟩
  | Backend.failing => ⟨expected_cols, []⟩
  | Backend.ok cols rows =>
      if expected_cols.all (fun c => decide (c ∈ cols)) then ⟨cols, rows⟩
      else ⟨expected_cols, []⟩

/-- One sheet row as the sidebar save handler writes it:
new_row = [date_str, input_weight, input_smm]. -/
structure SheetRow where
  date : String
  weight : Rat
  smm : Rat
  deriving Repr, DecidableEq

/-- Sidebar save handler: sheet.append_row(new_row).  The row is appended to
the sheet unconditionally; no lookup of an existing row with the same date
happens anywhere in the handler. -/
def save_record (store : List SheetRow) (m : SheetRow) : List SheetRow :=
  store ++ [m]

/-- The coaching zones that display_analysis can actually emit. -/
inductive Zone where
  | dirtyBulk
  | leanBulk
  | cutting
  deriving Repr, DecidableEq

/-- Zone branch of display_analysis, translated clause for clause:
if monthly_gain_percent > 1.5 → Dirty Bulk; elif 0.5 <= monthly_gain_percent
<= 1.0 → Lean Bulk; elif monthly_gain_percent < 0 → Cutting; otherwise no
zone message is shown at all. -/
def displayZone (p : Rat) : Option Zone :=
  if p > 3 / 2 then some Zone.dirtyBulk
  else if 1 / 2 ≤ p ∧ p ≤ 1 then some Zone.leanBulk
  else if p < 0 then some Zone.cutting
  else none

/-- monthly_gain_percent as display_analysis derives it:
(slope * 30 / current_weight) * 100. -/
def monthly_gain_percent (slope current_weight : Rat) : Rat :=
  slope * 30 / current_weight * 100

/-- Concrete store used by the witnesses: one record dated 2024-01-01. -/
def storeW : List SheetRow := [{ date := "2024-01-01", weight := 80, smm := 35 }]

/-- Concrete record carrying a new weight for the already-present date. -/
def rowW : SheetRow := { date := "2024-01-01", weight := 81, smm := 35 }

/-- C1 is false of the code as stated: with a store holding exactly one record
dated 2024-01-01, saving a new weight for that same date does not replace in
place — the store size changes from 1 to 2 and the date now appears twice. -/
theorem C1_counterexample :
    (∃ r ∈ storeW, r.date = rowW.date) ∧
      (save_record storeW rowW).length ≠ storeW.length ∧
      (save_record storeW rowW).countP (fun r => r.date == rowW.date) = 2 := by
  decide

/-- C1 (amended): the sidebar save handler appends unconditionally.  Even when
a record with the same date already exists in the store, saving grows the
store by one row and increases the number of rows carrying that date by one;
nothing is replaced in place and the one-record-per-date invariant is not
maintained. -/
theorem C1_upsert_always_appends (store : List SheetRow) (m : SheetRow)
    (_h : ∃ r ∈ store, r.date = m.date) :
    (save_record store m).length = store.length + 1 ∧
      (save_record store m).countP (fun r => r.date == m.date)
        = store.countP (fun r => r.date == m.date) + 1 := by
  refine ⟨by simp [save_record], ?_⟩
  simp [save_record, List.countP_append]

/-- Witness for C1_upsert_always_appends at a concrete store and record. -/
theorem C1_witness :
    (save_record storeW rowW).length = storeW.length + 1 ∧
      (save_record storeW rowW).countP (fun r => r.date == rowW.date)
        = storeW.countP (fun r => r.date == rowW.date) + 1 :=
  C1_upsert_always_appends storeW rowW (by decide)

/-- C5 is false of the code as stated: saving the identical (date, weight, smm)
triple twice leaves the store with two rows, not one — repeated saves are not
idempotent in size or content. -/
theorem C5_counterexample :
    (save_record (save_record [] rowW) rowW).length = 2 ∧
      save_record (save_record [] rowW) rowW ≠ save_record [] rowW := by
  decide

/-- C5 (amended): the save handler is not idempotent; N saves of the identical
triple append N copies of it, so the store length grows by exactly N. -/
theorem C5_repeated_save_adds_rows (store : List SheetRow) (m : SheetRow)
    (n : Nat) :
    ((fun s => save_record s m)^[n] store).length = store.length + n := by
  induction n generalizing store with
  | zero => simp
  | succ k ih =>
      rw [Function.iterate_succ_apply, ih]
      simp [save_record]
      omega

/-- C2 is false of the code as stated: monthly_gain_percent = 1.000001 triggers
no zone at all (there is no Fast Lane branch in the code), and 0 triggers no
zone either (there is no Maintenance branch). -/
theorem C2_counterexample :
    displayZone (1000001 / 1000000) = none ∧ displayZone 0 = none := by
  unfold displayZone
  norm_num

/-- C2 (amended): display_analysis evaluates only three thresholds, in order
(first match wins): p > 1.5 → Dirty Bulk, 0.5 ≤ p ≤ 1.0 → Lean Bulk,
p < 0 → Cutting; every other value, including 1.000001 and 0, produces no
zone.  The spec's boundary checks that survive: 1.0 → Lean Bulk and
-0.01 → Cutting. -/
theorem C2_zone_thresholds :
    (∀ p : Rat, displayZone p = some Zone.dirtyBulk ↔ p > 3 / 2) ∧
      (∀ p : Rat, displayZone p = some Zone.leanBulk ↔ 1 / 2 ≤ p ∧ p ≤ 1) ∧
      (∀ p : Rat, displayZone p = some Zone.cutting ↔ p < 0) ∧
      displayZone 1 = some Zone.leanBulk ∧
      displayZone (-(1 / 100)) = some Zone.cutting ∧
      displayZone (1000001 / 1000000) = none ∧
      displayZone 0 = none := by
  refine ⟨?_, ?_, ?_, by unfold displayZone; norm_num,
    by unfold displayZone; norm_num, by unfold displayZone; norm_num,
    by unfold displayZone; norm_num⟩
  · intro p
    unfold displayZone
    split_ifs with h1 h2 h3
    · exact iff_of_true rfl h1
    · exact iff_of_false (by simp) h1
    · exact iff_of_false (by simp) h1
    · exact iff_of_false (by simp) h1
  · intro p
    unfold displayZone
    split_ifs with h1 h2 h3
    · exact iff_of_false (by simp) (fun h => by linarith [h.2])
    · exact iff_of_true rfl h2
    · exact iff_of_false (by simp) (fun h => by linarith [h.1])
    · exact iff_of_false (by simp) h2
  · intro p
    unfold displayZone
    split_ifs with h1 h2 h3
    · exact iff_of_false (by simp) (fun h => by linarith)
    · exact iff_of_false (by simp) (fun h => by linarith [h2.1])
    · exact iff_of_true rfl h3
    · exact iff_of_false (by simp) h3

/-- C8: load_data returns the empty frame (and never fails) whenever the
backend handle is absent, the read raises, or the loaded table is missing one
of the required columns Date, Weight, SMM. -/
theorem C8_load_soft_failure (b : Backend)
    (h : b = Backend.absent ∨ b = Backend.failing ∨
      ∃ cols rows, b = Backend.ok cols rows ∧
        ("Date" ∉ cols ∨ "Weight" ∉ cols ∨ "SMM" ∉ cols)) :
    load_data b = ⟨expected_cols, []⟩ := by
  rcases h with h | h | ⟨cols, rows, h, hmiss⟩
  · subst h; rfl
  · subst h; rfl
  · subst h
    have hnot : ¬ (expected_cols.all (fun c => decide (c ∈ cols)) = true) := by
      simp only [expected_cols, List.all_cons, List.all_nil, Bool.and_eq_true,
        decide_eq_true_eq, Bool.and_true]
      tauto
    simp only [load_data]
    rw [if_neg hnot]

/-- Witness for C8_load_soft_failure at the absent backend. -/
theorem C8_witness : load_data Backend.absent = ⟨expected_cols, []⟩ :=
  C8_load_soft_failure Backend.absent (Or.inl rfl)

/-- The line dataframe["Date_Obj"] = pd.to_datetime(dataframe["Date"],
errors="coerce") of calculate_slope: writes the parsed date of every row into
the Date_Obj column of the caller's frame itself (an in-place mutation),
adding the column when it is not yet present. -/
def addDateObj (pdate : String → Option Int) (df : DataFrame) : DataFrame :=
  { cols := if "Date_Obj" ∈ df.cols then df.cols else df.cols ++ ["Date_Obj"],
    rows := df.rows.map (fun r => { r with dateObj := pdate r.dateRaw }) }

/-- dropna(subset=["Date_Obj"]) followed by the window filter
Date_Obj >= cutoff_date, with cutoff_date = now - days: the rows of
recent_df, in input order. -/
def recentRows (now days : Int) (rows : List Row) : List Row :=
  (rows.filter (fun r => r.dateObj.isSome)).filter
    (fun r => decide (now - days ≤ r.dateObj.getD 0))

/-- recent_df["Date_Num"] = Date_Obj.map(datetime.toordinal) combined with
recent_df["Weight"] = pd.to_numeric(recent_df["Weight"], errors="coerce") and
dropna(subset=["Weight"]): the (Date_Num, Weight) pairs surviving for the
fit, in input order. -/
def validPts (pnum : String → Option Rat) (rows : List Row) : List (Int × Rat) :=
  rows.filterMap (fun r => (pnum r.weightRaw).map (fun w => (r.dateObj.getD 0, w)))

/-- The recent_df rows of calculate_slope for a given input frame. -/
def recentOf (pdate : String → Option Int) (now days : Int) (df : DataFrame) :
    List Row :=
  recentRows now days (addDateObj pdate df).rows

/-- The (Date_Num, Weight) pairs calculate_slope hands to stats.linregress. -/
def ptsOf (pdate : String → Option Int) (pnum : String → Option Rat)
    (now days : Int) (df : DataFrame) : List (Int × Rat) :=
  validPts pnum (recentOf pdate now days df)

/-- x values handed to stats.linregress (the ordinal day numbers, as reals). -/
def xsOf (pts : List (Int × Rat)) : List Rat := pts.map (fun p => (p.1 : Rat))

/-- y values handed to stats.linregress (the coerced weights). -/
def ysOf (pts : List (Int × Rat)) : List Rat := pts.map (fun p => p.2)

/-- Mean of the x values. -/
def xbar (pts : List (Int × Rat)) : Rat := (xsOf pts).sum / pts.length

/-- Mean of the y values. -/
def ybar (pts : List (Int × Rat)) : Rat := (ysOf pts).sum / pts.length

/-- Sum of squared x deviations (n times the biased x variance). -/
def ssxm (pts : List (Int × Rat)) : Rat :=
  ((xsOf pts).map (fun x => (x - xbar pts) ^ 2)).sum

/-- Sum of products of deviations (n times the biased covariance). -/
def ssxym (pts : List (Int × Rat)) : Rat :=
  (((xsOf pts).zip (ysOf pts)).map
    (fun p => (p.1 - xbar pts) * (p.2 - ybar pts))).sum

/-- Sum of squared y deviations. -/
def ssym (pts : List (Int × Rat)) : Rat :=
  ((ysOf pts).map (fun y => (y - ybar pts) ^ 2)).sum

/-- All x values identical: scipy's amax(x) == amin(x) test. -/
def allSame (xs : List Rat) : Bool := xs.all (fun x => x == xs.headD 0)

/-- stats.linregress on (Date_Num, Weight): raises ValueError — modelled as
none, which the surrounding except of calculate_slope turns into None — when
more than one point exists and every x is identical; otherwise the
least-squares slope cov(x, y)/var(x) together with r^2, where scipy reports
r = 0 when the x or y variance vanishes. -/
def linregress (pts : List (Int × Rat)) : Option (Rat × Rat) :=
  if 1 < pts.length ∧ allSame (xsOf pts) then none
  else some (ssxym pts / ssxm pts,
    if ssxm pts = 0 ∨ ssym pts = 0 then 0
    else ssxym pts ^ 2 / (ssxm pts * ssym pts))

/-- The dictionary calculate_slope returns on success: slope, r_squared,
count, and current_weight = recent_df["Weight"].iloc[-1]. -/
structure TrendResult where
  slope : Rat
  r_squared : Rat
  count : Nat
  current_weight : Rat
  deriving Repr, DecidableEq

/-- calculate_slope from app.py.  Returns the analysis result (None on the
early exits) together with the caller's dataframe as it stands after the
call, since the Date_Obj assignment mutates it in place.  The early exit
covers dataframe.empty or a missing Date column; then fewer than 2 windowed
rows, fewer than 2 numeric weights, or a linregress error each return None.
current_weight is the last surviving row in input order (iloc[-1]). -/
def calculate_slope (pdate : String → Option Int) (pnum : String → Option Rat)
    (now days : Int) (df : DataFrame) : Option TrendResult × DataFrame :=
  if df.rows.isEmpty ∨ "Date" ∉ df.cols then (none, df)
  else if (recentOf pdate now days df).length < 2 then (none, addDateObj pdate df)
  else if (ptsOf pdate pnum now days df).length < 2 then (none, addDateObj pdate df)
  else
    match linregress (ptsOf pdate pnum now days df) with
    | none => (none, addDateObj pdate df)
    | some sr =>
        (some { slope := sr.1, r_squared := sr.2,
                count := (ptsOf pdate pnum now days df).length,
                current_weight :=
                  (((ptsOf pdate pnum now days df).getLast?).map Prod.snd).getD 0 },
         addDateObj pdate df)

/-- The analysis result alone, with the guard cascade spelled out. -/
def slope_result (pdate : String → Option Int) (pnum : String → Option Rat)
    (now days : Int) (df : DataFrame) : Option TrendResult :=
  if df.rows.isEmpty ∨ "Date" ∉ df.cols then none
  else if (recentOf pdate now days df).length < 2 then none
  else if (ptsOf pdate pnum now days df).length < 2 then none
  else
    match linregress (ptsOf pdate pnum now days df) with
    | none => none
    | some sr =>
        some { slope := sr.1, r_squared := sr.2,
               count := (ptsOf pdate pnum now days df).length,
               current_weight :=
                 (((ptsOf pdate pnum now days df).getLast?).map Prod.snd).getD 0 }

lemma calculate_slope_fst (pdate : String → Option Int)
    (pnum : String → Option Rat) (now days : Int) (df : DataFrame) :
    (calculate_slope pdate pnum now days df).1 = slope_result pdate pnum now days df := by
  unfold calculate_slope slope_result
  split_ifs
  · rfl
  · rfl
  · rfl
  · cases linregress (ptsOf pdate pnum now days df) <;> rfl

lemma slope_result_eq_none (pdate : String → Option Int)
    (pnum : String → Option Rat) (now days : Int) (df : DataFrame)
    (h : (ptsOf pdate pnum now days df).length < 2) :
    slope_result pdate pnum now days df = none := by
  unfold slope_result
  split_ifs <;> rfl

/-- C7: whenever fewer than 2 records qualify — parseable date inside the
trailing window and numeric weight — calculate_slope returns None rather
than a result or an error. -/
theorem C7_insufficient_data (pdate : String → Option Int)
    (pnum : String → Option Rat) (now days : Int) (df : DataFrame)
    (h : (ptsOf pdate pnum now days df).length < 2) :
    (calculate_slope pdate pnum now days df).1 = none := by
  rw [calculate_slope_fst]
  exact slope_result_eq_none pdate pnum now days df h

/-- Date parser used by the concrete witnesses: a lookup table standing in
for pd.to_datetime on the handful of cells the witness frames contain. -/
def pdDemo (s : String) : Option Int :=
  if s = "d1" then some 1
  else if s = "d5" then some 5
  else if s = "d10" then some 10
  else if s = "d11" then some 11
  else none

/-- Numeric parser used by the concrete witnesses, standing in for
pd.to_numeric on the handful of cells the witness frames contain. -/
def pnDemo (s : String) : Option Rat :=
  if s = "80" then some 80
  else if s = "81" then some 81
  else if s = "35" then some 35
  else none

/-- Single-record frame: one measurement, not enough for a fit. -/
def dfOne : DataFrame :=
  ⟨["Date", "Weight", "SMM"], [{ dateRaw := "d5", weightRaw := "80", smmRaw := "35" }]⟩

/-- Witness for C7_insufficient_data on the single-record frame. -/
theorem C7_witness : (calculate_slope pdDemo pnDemo 10 14 dfOne).1 = none :=
  C7_insufficient_data pdDemo pnDemo 10 14 dfOne (by decide)

/-- The user-visible cells of a row: the raw Date, Weight and SMM values. -/
def rawOf (r : Row) : String × String × String := (r.dateRaw, r.weightRaw, r.smmRaw)

lemma map_rawOf_update (pdate : String → Option Int) (rows : List Row) :
    ((rows.map (fun r => { r with dateObj := pdate r.dateRaw })).map rawOf)
      = rows.map rawOf := by
  induction rows with
  | nil => rfl
  | cons r rs ih => simp only [List.map_cons, ih]; rfl

lemma addDateObj_cols_filter (pdate : String → Option Int) (df : DataFrame) :
    ((addDateObj pdate df).cols.filter (fun c => c != "Date_Obj"))
      = df.cols.filter (fun c => c != "Date_Obj") := by
  unfold addDateObj
  split_ifs with h
  · rfl
  · simp

/-- Two-record frame without a Date_Obj column, as load_data would hand it
over; calculate_slope's Date_Obj assignment visibly changes it. -/
def dfTwo : DataFrame :=
  ⟨["Date", "Weight", "SMM"],
   [{ dateRaw := "d5", weightRaw := "80", smmRaw := "35" },
    { dateRaw := "d10", weightRaw := "81", smmRaw := "35" }]⟩

/-- C9 is false of the code as stated: calculate_slope hands back a mutated
input frame — after the call the caller's frame has gained a Date_Obj column,
so the input collection does not keep "same columns". -/
theorem C9_counterexample :
    (calculate_slope pdDemo pnDemo 10 14 dfTwo).2 ≠ dfTwo ∧
      "Date_Obj" ∈ (calculate_slope pdDemo pnDemo 10 14 dfTwo).2.cols ∧
      "Date_Obj" ∉ dfTwo.cols := by
  refine ⟨?_, by decide, by decide⟩
  intro h
  have hmem : "Date_Obj" ∈ (calculate_slope pdDemo pnDemo 10 14 dfTwo).2.cols := by
    decide
  rw [h] at hmem
  exact absurd hmem (by decide)

/-- C9 (amended): the only mutation calculate_slope performs on its input is
writing the derived Date_Obj column.  The raw Date, Weight and SMM cells of
every row, the number of rows, and the column list apart from Date_Obj are
all unchanged after the call. -/
theorem C9_mutation_scope (pdate : String → Option Int)
    (pnum : String → Option Rat) (now days : Int) (df : DataFrame) :
    ((calculate_slope pdate pnum now days df).2.rows.map rawOf = df.rows.map rawOf) ∧
      ((calculate_slope pdate pnum now days df).2.rows.length = df.rows.length) ∧
      ((calculate_slope pdate pnum now days df).2.cols.filter (fun c => c != "Date_Obj")
        = df.cols.filter (fun c => c != "Date_Obj")) := by
  have hrows : (addDateObj pdate df).rows.map rawOf = df.rows.map rawOf :=
    map_rawOf_update pdate df.rows
  have hlen : (addDateObj pdate df).rows.length = df.rows.length := by
    simp [addDateObj]
  have hcols := addDateObj_cols_filter pdate df
  unfold calculate_slope
  split_ifs with h1 h2 h3
  · exact ⟨rfl, rfl, rfl⟩
  · exact ⟨hrows, hlen, hcols⟩
  · exact ⟨hrows, hlen, hcols⟩
  · cases linregress (ptsOf pdate pnum now days df)
    · exact ⟨hrows, hlen, hcols⟩
    · exact ⟨hrows, hlen, hcols⟩

lemma pts_length_le_recent (pdate : String → Option Int)
    (pnum : String → Option Rat) (now days : Int) (df : DataFrame) :
    (ptsOf pdate pnum now days df).length ≤ (recentOf pdate now days df).length := by
  unfold ptsOf validPts
  exact List.length_filterMap_le _ _

lemma recent_length_le_rows (pdate : String → Option Int) (now days : Int)
    (df : DataFrame) :
    (recentOf pdate now days df).length ≤ df.rows.length := by
  unfold recentOf recentRows
  have h1 := List.length_filter_le
    (fun r => decide (now - days ≤ r.dateObj.getD 0))
    ((addDateObj pdate df).rows.filter (fun r => r.dateObj.isSome))
  have h2 := List.length_filter_le (fun r : Row => r.dateObj.isSome)
    (addDateObj pdate df).rows
  have h3 : (addDateObj pdate df).rows.length = df.rows.length := by
    simp [addDateObj]
  omega

/-- On success, calculate_slope returns exactly the linregress slope and r^2
together with the count and the array-position-last weight; this lemma
resolves the guard cascade under the two-point and non-degenerate-x
hypotheses. -/
lemma calc_fst_eq_some (pdate : String → Option Int)
    (pnum : String → Option Rat) (now days : Int) (df : DataFrame)
    (hcol : "Date" ∈ df.cols)
    (h2 : 2 ≤ (ptsOf pdate pnum now days df).length)
    (hna : allSame (xsOf (ptsOf pdate pnum now days df)) = false) :
    (calculate_slope pdate pnum now days df).1
      = some { slope := ssxym (ptsOf pdate pnum now days df)
                 / ssxm (ptsOf pdate pnum now days df),
               r_squared := if ssxm (ptsOf pdate pnum now days df) = 0
                   ∨ ssym (ptsOf pdate pnum now days df) = 0 then 0
                 else ssxym (ptsOf pdate pnum now days df) ^ 2
                   / (ssxm (ptsOf pdate pnum now days df)
                     * ssym (ptsOf pdate pnum now days df)),
               count := (ptsOf pdate pnum now days df).length,
               current_weight :=
                 (((ptsOf pdate pnum now days df).getLast?).map Prod.snd).getD 0 } := by
  have hle1 := pts_length_le_recent pdate pnum now days df
  have hle2 := recent_length_le_rows pdate now days df
  have hlen : 2 ≤ df.rows.length := le_trans h2 (le_trans hle1 hle2)
  have hrows : df.rows.isEmpty = false := by
    cases hr : df.rows with
    | nil => rw [hr] at hlen; simp at hlen
    | cons a l => rfl
  rw [calculate_slope_fst]
  unfold slope_result
  rw [if_neg (by simp [hrows, hcol]), if_neg (by omega), if_neg (by omega)]
  unfold linregress
  rw [if_neg (by simp [hna])]

lemma allSame_eq_false_of_ne {pts : List (Int × Rat)} {p q : Int × Rat}
    (hp : p ∈ pts) (hq : q ∈ pts) (hne : p.1 ≠ q.1) :
    allSame (xsOf pts) = false := by
  cases hA : allSame (xsOf pts) with
  | false => rfl
  | true =>
      exfalso
      rw [allSame, List.all_eq_true] at hA
      have h1 := hA _ (List.mem_map_of_mem (fun p : Int × Rat => (p.1 : Rat)) hp)
      have h2 := hA _ (List.mem_map_of_mem (fun p : Int × Rat => (p.1 : Rat)) hq)
      rw [beq_iff_eq] at h1 h2
      have hcast : ((p.1 : Rat)) = ((q.1 : Rat)) := h1.trans h2.symm
      exact hne (by exact_mod_cast hcast)

/-- Value of the qualifying record with the maximum date, as the spec defines
reference_weight (first-encountered record wins among equal dates). -/
def maxDateWeightSpec : List (Int × Rat) → Option Rat
  | [] => none
  | p :: ps => some ((ps.foldl (fun acc q => if acc.1 < q.1 then q else acc) p).2)

lemma foldl_max_sorted :
    ∀ (l : List (Int × Rat)) (p : Int × Rat),
      (p :: l).Pairwise (fun a b => a.1 < b.1) →
      l.foldl (fun acc q => if acc.1 < q.1 then q else acc) p
        = (p :: l).getLast (List.cons_ne_nil p l) := by
  intro l
  induction l with
  | nil => intro p _; rfl
  | cons q t ih =>
      intro p hp
      rw [List.foldl_cons]
      have hpq : p.1 < q.1 :=
        (List.pairwise_cons.mp hp).1 q (List.mem_cons_self q t)
      rw [if_pos hpq, ih q (List.pairwise_cons.mp hp).2]
      exact (List.getLast_cons (List.cons_ne_nil q t)).symm

/-- Frame whose records are not sorted by date: the most recent measurement
(d10, weight 81) comes first, an older one (d5, weight 80) last. -/
def dfRev : DataFrame :=
  ⟨["Date", "Weight", "SMM"],
   [{ dateRaw := "d10", weightRaw := "81", smmRaw := "35" },
    { dateRaw := "d5", weightRaw := "80", smmRaw := "35" }]⟩

/-- C3 is false of the code as stated: on a window holding records in the
order (d10, 81), (d5, 80), calculate_slope reports current_weight = 80 — the
array-position-last record — while the qualifying record with the maximum
date weighs 81. -/
theorem C3_counterexample :
    ((calculate_slope pdDemo pnDemo 10 14 dfRev).1.map TrendResult.current_weight)
        = some 80 ∧
      maxDateWeightSpec (ptsOf pdDemo pnDemo 10 14 dfRev) = some 81 ∧
      (80 : Rat) ≠ 81 := by
  exact ⟨by decide, by decide, by decide⟩

/-- C3 (amended): reference_weight is the weight of the qualifying record in
the last array position (iloc[-1]), not of the maximum-date record; the two
coincide exactly when the qualifying records happen to arrive sorted in
strictly increasing date order, as proved here. -/
theorem C3_reference_weight (pdate : String → Option Int)
    (pnum : String → Option Rat) (now days : Int) (df : DataFrame)
    (hcol : "Date" ∈ df.cols)
    (h2 : 2 ≤ (ptsOf pdate pnum now days df).length)
    (hsorted : (ptsOf pdate pnum now days df).Pairwise (fun a b => a.1 < b.1)) :
    ((calculate_slope pdate pnum now days df).1.map TrendResult.current_weight)
        = ((ptsOf pdate pnum now days df).getLast?).map Prod.snd ∧
      ((calculate_slope pdate pnum now days df).1.map TrendResult.current_weight)
        = maxDateWeightSpec (ptsOf pdate pnum now days df) := by
  rcases hp : ptsOf pdate pnum now days df with _ | ⟨a, t⟩
  · rw [hp] at h2; simp at h2
  · rcases t with _ | ⟨b, t2⟩
    · rw [hp] at h2; simp at h2
    · have hmema : a ∈ ptsOf pdate pnum now days df := by
        rw [hp]; exact List.mem_cons_self a (b :: t2)
      have hmemb : b ∈ ptsOf pdate pnum now days df := by
        rw [hp]; exact List.mem_cons_of_mem a (List.mem_cons_self b t2)
      have hab : a.1 ≠ b.1 := by
        rw [hp] at hsorted
        exact ne_of_lt ((List.pairwise_cons.mp hsorted).1 b (List.mem_cons_self b t2))
      have hna := allSame_eq_false_of_ne hmema hmemb hab
      rw [calc_fst_eq_some pdate pnum now days df hcol h2 hna]
      rw [hp] at hsorted ⊢
      have hlast := List.getLast?_eq_getLast (a :: b :: t2) (List.cons_ne_nil a (b :: t2))
      rw [hlast]
      constructor
      · rfl
      · rw [maxDateWeightSpec, foldl_max_sorted (b :: t2) a hsorted]
        rfl

/-- Frame whose records arrive sorted in increasing date order. -/
def dfSorted : DataFrame :=
  ⟨["Date", "Weight", "SMM"],
   [{ dateRaw := "d5", weightRaw := "80", smmRaw := "35" },
    { dateRaw := "d10", weightRaw := "81", smmRaw := "35" }]⟩

/-- Witness for C3_reference_weight on the sorted two-record frame. -/
theorem C3_witness :
    ((calculate_slope pdDemo pnDemo 10 14 dfSorted).1.map TrendResult.current_weight)
        = ((ptsOf pdDemo pnDemo 10 14 dfSorted).getLast?).map Prod.snd ∧
      ((calculate_slope pdDemo pnDemo 10 14 dfSorted).1.map TrendResult.current_weight)
        = maxDateWeightSpec (ptsOf pdDemo pnDemo 10 14 dfSorted) :=
  C3_reference_weight pdDemo pnDemo 10 14 dfSorted (by decide) (by decide) (by decide)

/-- Sum of the x values of a point list. -/
def sxOf (pts : List (Int × Rat)) : Rat := (pts.map (fun p => (p.1 : Rat))).sum

/-- Sum of the y values of a point list. -/
def syOf (pts : List (Int × Rat)) : Rat := (pts.map (fun p => p.2)).sum

/-- Sum of the products x * y of a point list. -/
def sxyOf (pts : List (Int × Rat)) : Rat :=
  (pts.map (fun p => (p.1 : Rat) * p.2)).sum

/-- Sum of the squares x^2 of a point list. -/
def sxxOf (pts : List (Int × Rat)) : Rat :=
  (pts.map (fun p => (p.1 : Rat) ^ 2)).sum

/-- Closed-form ordinary-least-squares slope
(n * sum xy - sum x * sum y) / (n * sum x^2 - (sum x)^2), exactly as the
spec states the property. -/
def olsSlopeSpec (pts : List (Int × Rat)) : Rat :=
  ((pts.length : Rat) * sxyOf pts - sxOf pts * syOf pts)
    / ((pts.length : Rat) * sxxOf pts - sxOf pts ^ 2)

lemma sum_shift_sq (l : List (Int × Rat)) (c : Rat) :
    ((l.map (fun p => ((p.1 : Rat) - c) ^ 2)).sum)
      = (l.map (fun p => (p.1 : Rat) ^ 2)).sum
        - 2 * c * (l.map (fun p => (p.1 : Rat))).sum + l.length * c ^ 2 := by
  induction l with
  | nil => simp
  | cons a l ih =>
      simp only [List.map_cons, List.sum_cons, List.length_cons, ih]
      push_cast
      ring

lemma sum_shift_mul (l : List (Int × Rat)) (c d : Rat) :
    ((l.map (fun p => ((p.1 : Rat) - c) * (p.2 - d))).sum)
      = (l.map (fun p => (p.1 : Rat) * p.2)).sum
        - d * (l.map (fun p => (p.1 : Rat))).sum
        - c * (l.map (fun p => p.2)).sum + l.length * (c * d) := by
  induction l with
  | nil => simp
  | cons a l ih =>
      simp only [List.map_cons, List.sum_cons, List.length_cons, ih]
      push_cast
      ring

lemma length_cast_ne_zero {pts : List (Int × Rat)} (h : pts ≠ []) :
    ((pts.length : Rat)) ≠ 0 := by
  have : pts.length ≠ 0 := fun hl => h (List.length_eq_zero.mp hl)
  exact_mod_cast this

lemma ssxm_mul_len (pts : List (Int × Rat)) (h : pts ≠ []) :
    ssxm pts * pts.length
      = (pts.length : Rat) * sxxOf pts - sxOf pts ^ 2 := by
  have hn := length_cast_ne_zero h
  have hx : ssxm pts
      = sxxOf pts - 2 * xbar pts * sxOf pts + pts.length * xbar pts ^ 2 := by
    unfold ssxm xsOf
    rw [List.map_map]
    exact sum_shift_sq pts (xbar pts)
  rw [hx]
  unfold xbar xsOf sxOf at *
  field_simp
  ring

lemma ssxym_mul_len (pts : List (Int × Rat)) (h : pts ≠ []) :
    ssxym pts * pts.length
      = (pts.length : Rat) * sxyOf pts - sxOf pts * syOf pts := by
  have hn := length_cast_ne_zero h
  have hx : ssxym pts
      = sxyOf pts - ybar pts * sxOf pts - xbar pts * syOf pts
        + pts.length * (xbar pts * ybar pts) := by
    unfold ssxym xsOf ysOf
    rw [List.zip_map' (fun p : Int × Rat => (p.1 : Rat)) (fun p : Int × Rat => p.2) pts,
      List.map_map]
    exact sum_shift_mul pts (xbar pts) (ybar pts)
  rw [hx]
  unfold xbar ybar xsOf ysOf sxOf syOf at *
  field_simp
  ring

/-- The covariance-over-variance slope linregress computes coincides with the
closed-form OLS slope. -/
lemma slope_eq_ols (pts : List (Int × Rat)) (h : pts ≠ []) :
    ssxym pts / ssxm pts = olsSlopeSpec pts := by
  have hn := length_cast_ne_zero h
  unfold olsSlopeSpec
  rw [← ssxym_mul_len pts h, ← ssxm_mul_len pts h,
    mul_div_mul_right _ _ hn]

lemma two_le_length_of_two_mem {α : Type} {a b : α} {l : List α}
    (ha : a ∈ l) (hb : b ∈ l) (hne : a ≠ b) : 2 ≤ l.length := by
  cases l with
  | nil => cases ha
  | cons x xs =>
      cases xs with
      | nil =>
          simp only [List.mem_singleton] at ha hb
          exact absurd (ha.trans hb.symm) hne
      | cons y ys => simp [List.length_cons]

/-- C4: whenever at least two qualifying records carry distinct dates,
calculate_slope succeeds and its slope is exactly the closed-form OLS slope
of (ordinal date, weight) over the qualifying records. -/
theorem C4_ols_slope (pdate : String → Option Int)
    (pnum : String → Option Rat) (now days : Int) (df : DataFrame)
    (hcol : "Date" ∈ df.cols)
    (hdist : ∃ p ∈ ptsOf pdate pnum now days df,
      ∃ q ∈ ptsOf pdate pnum now days df, p.1 ≠ q.1) :
    ((calculate_slope pdate pnum now days df).1.map TrendResult.slope)
      = some (olsSlopeSpec (ptsOf pdate pnum now days df)) := by
  obtain ⟨p, hp, q, hq, hne⟩ := hdist
  have hpq : p ≠ q := fun he => hne (he ▸ rfl)
  have h2 : 2 ≤ (ptsOf pdate pnum now days df).length :=
    two_le_length_of_two_mem hp hq hpq
  have hna := allSame_eq_false_of_ne hp hq hne
  rw [calc_fst_eq_some pdate pnum now days df hcol h2 hna]
  have hnil : ptsOf pdate pnum now days df ≠ [] := by
    intro hz
    rw [hz] at h2
    simp at h2
  rw [Option.map_some']
  exact congrArg some (slope_eq_ols (ptsOf pdate pnum now days df) hnil)

/-- Two-record frame with distinct dates d1 and d11, ten days apart. -/
def dfC4 : DataFrame :=
  ⟨["Date", "Weight", "SMM"],
   [{ dateRaw := "d1", weightRaw := "80", smmRaw := "35" },
    { dateRaw := "d11", weightRaw := "81", smmRaw := "35" }]⟩

/-- Witness for C4_ols_slope on a sorted two-record frame with distinct
dates d1 and d11. -/
theorem C4_witness :
    ((calculate_slope pdDemo pnDemo 11 14 dfC4).1.map TrendResult.slope)
      = some (olsSlopeSpec (ptsOf pdDemo pnDemo 11 14 dfC4)) :=
  C4_ols_slope pdDemo pnDemo 11 14 dfC4 (by decide) (by decide)

/-- A spreadsheet cell as append_rows receives it: a string (dates, the
header) or a number (the coerced Weight and SMM values). -/
inductive Cell where
  | str (s : String)
  | num (q : Rat)
  deriving Repr, DecidableEq

/-- save_df.columns.tolist(): the header row of the upload. -/
def headerRow : List Cell := [Cell.str "Date", Cell.str "Weight", Cell.str "SMM"]

/-- One edited row serialized for upload by the sync handler: the Date cell
via strftime/str (already a string here), Weight and SMM via
pd.to_numeric(..., errors="coerce").fillna(0.0). -/
def serializeRow (pnum : String → Option Rat) (r : Row) : List Cell :=
  [Cell.str r.dateRaw, Cell.num ((pnum r.weightRaw).getD 0),
   Cell.num ((pnum r.smmRaw).getD 0)]

/-- data_to_upload = [save_df.columns.tolist()] + save_df.values.tolist(). -/
def dataToUpload (pnum : String → Option Rat) (edited : List Row) :
    List (List Cell) :=
  headerRow :: edited.map (serializeRow pnum)

/-- The primitive backend calls the sync handler issues. -/
inductive SheetOp where
  | clear
  | appendRows (rows : List (List Cell))
  deriving Repr, DecidableEq

/-- Effect of one backend call on the persisted sheet. -/
def applySheetOp (s : List (List Cell)) : SheetOp → List (List Cell)
  | SheetOp.clear => []
  | SheetOp.appendRows rs => s ++ rs

/-- The sync button handler's write sequence, in program order:
sheet.clear() followed by sheet.append_rows(data_to_upload). -/
def syncProgram (pnum : String → Option Rat) (edited : List Row) :
    List SheetOp :=
  [SheetOp.clear, SheetOp.appendRows (dataToUpload pnum edited)]

/-- Run a prefix (or all) of the backend calls against a starting sheet. -/
def runSheetOps (s : List (List Cell)) (ops : List SheetOp) : List (List Cell) :=
  ops.foldl applySheetOp s

/-- Every intermediate sheet state of a call sequence, starting state
included. -/
def sheetStates (s : List (List Cell)) (ops : List SheetOp) :
    List (List (List Cell)) :=
  ops.scanl applySheetOp s

/-- Prior persisted sheet used by the C6 counterexample. -/
def priorSheet : List (List Cell) :=
  [headerRow, [Cell.str "2024-01-01", Cell.num 80, Cell.num 35]]

/-- Replacement rows used by the C6 counterexample. -/
def editedRows : List Row :=
  [{ dateRaw := "2024-01-02", weightRaw := "81", smmRaw := "35" }]

/-- C6 is false of the code as stated: the sync handler is clear-then-write,
so the execution interrupted after its first backend call (a prefix of the
program) leaves the sheet empty — the prior content is no longer in the
persisted store even though the new write never happened. -/
theorem C6_counterexample :
    (syncProgram pnDemo editedRows).take 1 = [SheetOp.clear] ∧
      runSheetOps priorSheet ((syncProgram pnDemo editedRows).take 1) = [] ∧
      priorSheet ≠ [] := by
  exact ⟨rfl, rfl, by decide⟩

/-- C6 (amended): the bulk replace is not atomic.  The handler issues
sheet.clear() and then sheet.append_rows(data); the successive sheet states
are exactly [prior, [], data], so a run interrupted between the two calls
leaves the persisted store empty (prior content lost from the live sheet),
while a completed run leaves precisely the uploaded replacement data. -/
theorem C6_clear_then_write (pnum : String → Option Rat)
    (prior : List (List Cell)) (edited : List Row) :
    sheetStates prior (syncProgram pnum edited)
      = [prior, [], dataToUpload pnum edited] := by
  rfl

/-- Rows whose raw Date cell pd.to_datetime cannot parse (they become NaT and
are dropped by dropna(subset=["Date_Obj"])). -/
def dropBadDates (pdate : String → Option Int) (rows : List Row) : List Row :=
  rows.filter (fun r => (pdate r.dateRaw).isSome)

/-- Rows whose raw Weight cell pd.to_numeric cannot parse (they become NaN
and are dropped by dropna(subset=["Weight"])). -/
def dropBadWeights (pnum : String → Option Rat) (rows : List Row) : List Row :=
  rows.filter (fun r => (pnum r.weightRaw).isSome)

lemma filtered_dates_map (pdate : String → Option Int) (rows : List Row) :
    ((rows.filter (fun r => (pdate r.dateRaw).isSome)).map
        (fun r => { r with dateObj := pdate r.dateRaw })).filter
      (fun r => r.dateObj.isSome)
    = (rows.map (fun r => { r with dateObj := pdate r.dateRaw })).filter
        (fun r => r.dateObj.isSome) := by
  induction rows with
  | nil => rfl
  | cons r t ih =>
      by_cases h : (pdate r.dateRaw).isSome = true
      · simp only [List.filter_cons, List.map_cons, h, if_true, ih]
      · simp only [List.filter_cons, List.map_cons, h, Bool.false_eq_true,
          if_false, ih]

lemma filtered_weights_map (pdate : String → Option Int)
    (pnum : String → Option Rat) (rows : List Row) :
    (rows.filter (fun r => (pnum r.weightRaw).isSome)).map
        (fun r => { r with dateObj := pdate r.dateRaw })
    = (rows.map (fun r => { r with dateObj := pdate r.dateRaw })).filter
        (fun r => (pnum r.weightRaw).isSome) := by
  induction rows with
  | nil => rfl
  | cons r t ih =>
      by_cases h : (pnum r.weightRaw).isSome = true
      · simp only [List.filter_cons, List.map_cons, h, if_true, ih]
      · simp only [List.filter_cons, List.map_cons, h, Bool.false_eq_true,
          if_false, ih]

lemma filter_swap {α : Type} (p q : α → Bool) (l : List α) :
    (l.filter q).filter p = (l.filter p).filter q := by
  induction l with
  | nil => rfl
  | cons a t ih =>
      by_cases hp : p a = true <;> by_cases hq : q a = true <;>
        simp only [List.filter_cons, hp, hq, if_true, Bool.false_eq_true,
          if_false, ih]

lemma validPts_filter_isSome (pnum : String → Option Rat) (l : List Row) :
    validPts pnum (l.filter (fun r => (pnum r.weightRaw).isSome))
      = validPts pnum l := by
  induction l with
  | nil => rfl
  | cons r t ih =>
      unfold validPts at ih ⊢
      by_cases h : (pnum r.weightRaw).isSome = true
      · rw [List.filter_cons, if_pos (by exact_mod_cast h), List.filterMap_cons,
          List.filterMap_cons]
        cases hw : pnum r.weightRaw with
        | none => rw [hw] at h; simp at h
        | some w => simp only [Option.map_some', ih]
      · rw [List.filter_cons, if_neg (by simpa using h), List.filterMap_cons]
        cases hw : pnum r.weightRaw with
        | some w => rw [hw] at h; simp at h
        | none => simp only [Option.map_none', ih]

lemma recentOf_dropBadDates (pdate : String → Option Int) (now days : Int)
    (df : DataFrame) :
    recentOf pdate now days { df with rows := dropBadDates pdate df.rows }
      = recentOf pdate now days df := by
  unfold recentOf recentRows addDateObj dropBadDates
  dsimp only
  rw [filtered_dates_map pdate df.rows]

lemma recentOf_dropBadWeights (pdate : String → Option Int)
    (pnum : String → Option Rat) (now days : Int) (df : DataFrame) :
    recentOf pdate now days { df with rows := dropBadWeights pnum df.rows }
      = (recentOf pdate now days df).filter
          (fun r => (pnum r.weightRaw).isSome) := by
  unfold recentOf recentRows addDateObj dropBadWeights
  dsimp only
  rw [filtered_weights_map pdate pnum df.rows]
  exact (congrArg (List.filter (fun r => decide (now - days ≤ r.dateObj.getD 0)))
      (filter_swap (fun r => r.dateObj.isSome)
        (fun r => (pnum r.weightRaw).isSome)
        (df.rows.map (fun r => { r with dateObj := pdate r.dateRaw })))).trans
    (filter_swap (fun r => decide (now - days ≤ r.dateObj.getD 0))
      (fun r => (pnum r.weightRaw).isSome)
      ((df.rows.map (fun r => { r with dateObj := pdate r.dateRaw })).filter
        (fun r => r.dateObj.isSome)))

lemma ptsOf_dropBadDates (pdate : String → Option Int)
    (pnum : String → Option Rat) (now days : Int) (df : DataFrame) :
    ptsOf pdate pnum now days { df with rows := dropBadDates pdate df.rows }
      = ptsOf pdate pnum now days df := by
  unfold ptsOf
  rw [recentOf_dropBadDates]

lemma ptsOf_dropBadWeights (pdate : String → Option Int)
    (pnum : String → Option Rat) (now days : Int) (df : DataFrame) :
    ptsOf pdate pnum now days { df with rows := dropBadWeights pnum df.rows }
      = ptsOf pdate pnum now days df := by
  unfold ptsOf
  rw [recentOf_dropBadWeights, validPts_filter_isSome]

lemma isEmpty_false_of_two_le {df : DataFrame} (h : 2 ≤ df.rows.length) :
    df.rows.isEmpty = false := by
  cases hr : df.rows with
  | nil => rw [hr] at h; simp at h
  | cons a l => rfl

/-- The analysis result depends on the input frame only through its columns
and its qualifying points. -/
lemma slope_result_congr (pdate : String → Option Int)
    (pnum : String → Option Rat) (now days : Int) (df1 df2 : DataFrame)
    (hcols : df1.cols = df2.cols)
    (hpts : ptsOf pdate pnum now days df1 = ptsOf pdate pnum now days df2) :
    slope_result pdate pnum now days df1 = slope_result pdate pnum now days df2 := by
  by_cases hsmall : (ptsOf pdate pnum now days df2).length < 2
  · rw [slope_result_eq_none pdate pnum now days df1 (by rw [hpts]; exact hsmall),
      slope_result_eq_none pdate pnum now days df2 hsmall]
  · by_cases hdate : "Date" ∈ df2.cols
    · have h22 : 2 ≤ (ptsOf pdate pnum now days df2).length := by omega
      have h21 : 2 ≤ (ptsOf pdate pnum now days df1).length := by
        rw [hpts]; exact h22
      have hr1 := pts_length_le_recent pdate pnum now days df1
      have hr2 := pts_length_le_recent pdate pnum now days df2
      have hw1 := recent_length_le_rows pdate now days df1
      have hw2 := recent_length_le_rows pdate now days df2
      have hB1 : ¬ ((recentOf pdate now days df1).length < 2) := by omega
      have hB2 : ¬ ((recentOf pdate now days df2).length < 2) := by omega
      have hrows1 : df1.rows.isEmpty = false := isEmpty_false_of_two_le (by omega)
      have hrows2 : df2.rows.isEmpty = false := isEmpty_false_of_two_le (by omega)
      have hA1 : ¬ (df1.rows.isEmpty = true ∨ "Date" ∉ df1.cols) := by
        rw [hrows1, hcols]; simp [hdate]
      have hA2 : ¬ (df2.rows.isEmpty = true ∨ "Date" ∉ df2.cols) := by
        rw [hrows2]; simp [hdate]
      unfold slope_result
      rw [if_neg hA1, if_neg hA2, if_neg hB1, if_neg hB2, hpts]
    · have hd1 : "Date" ∉ df1.cols := by rw [hcols]; exact hdate
      unfold slope_result
      rw [if_pos (Or.inr hd1), if_pos (Or.inr hdate)]

/-- C10: a row whose Date cell fails to parse is coerced to NaT and dropped
before windowing, and a row whose Weight cell fails numeric coercion is
dropped before fitting, so removing either kind of row from the input leaves
the analysis outcome unchanged; for every input the result is Some analysis
or None — the embedding is total and no exception reaches the caller. -/
theorem C10_coerce_and_drop (pdate : String → Option Int)
    (pnum : String → Option Rat) (now days : Int) (df : DataFrame) :
    (calculate_slope pdate pnum now days
        { df with rows := dropBadDates pdate df.rows }).1
      = (calculate_slope pdate pnum now days df).1 ∧
    (calculate_slope pdate pnum now days
        { df with rows := dropBadWeights pnum df.rows }).1
      = (calculate_slope pdate pnum now days df).1 := by
  constructor
  · rw [calculate_slope_fst, calculate_slope_fst]
    exact slope_result_congr pdate pnum now days _ df rfl
      (ptsOf_dropBadDates pdate pnum now days df)
  · rw [calculate_slope_fst, calculate_slope_fst]
    exact slope_result_congr pdate pnum now days _ df rfl
      (ptsOf_dropBadWeights pdate pnum now days df)

end BodyTracker
